import Mathlib

set_option maxRecDepth 100000
set_option maxHeartbeats 1600000

/-!
Verification of the response-normalization and parsing pipeline of
`src/utils.py` (data-insights chatbot).

The Python code is shallowly embedded: each `re.sub` call of
`InsightGenerator.clean_response` becomes an executable left-to-right
scanner over `List Char` with Python's leftmost, non-overlapping,
greedy match semantics; `json.loads` becomes a fueled recursive-descent
JSON parser; fallible Python code (statements that can raise) returns
`Except PyExn _`.

Character classes are the ASCII parts of Python's `\s` / `\w`; every
string handled by the claims is ASCII.
-/

/-- ASCII whitespace as matched by Python's regex `\s`:
space, tab, newline, carriage return, vertical tab, form feed. -/
def isWs (c : Char) : Bool :=
  c == ' ' || c == '\t' || c == '\n' || c == '\r' || c == '\x0b' || c == '\x0c'

/-- ASCII word character as matched by Python's regex `\w`. -/
def isWord (c : Char) : Bool :=
  c.isAlpha || c.isDigit || c == '_'

/-- The backtick character (written via a string literal). -/
def btk : Char := "`".data.headD ' '

/-- Length of the maximal `\s*` prefix of a character list. -/
def wsRun : List Char → Nat
  | [] => 0
  | c :: r => if isWs c then wsRun r + 1 else 0

/-- Boolean prefix test: `begins pat l` holds when `pat` is a prefix of `l`. -/
def begins : List Char → List Char → Bool
  | [], _ => true
  | _ :: _, [] => false
  | p :: ps, c :: cs => p == c && begins ps cs

/-- The literal `\x60\x60\x60json` alternative of the fence-stripping pattern. -/
def fenceJson : List Char := "```json".data

/-- The literal `\x60\x60\x60` used in the second fence alternative. -/
def fence3 : List Char := "```".data

/-- Scanner for `re.sub(r"\x60\x60\x60json\s*|\s*\x60\x60\x60", "", text)`
(utils.py line 118).  At each position the first alternative is tried,
then the second; since no whitespace character is a backtick, the
backtracking of the greedy `\s*` reduces to: take the maximal
whitespace run, then require three backticks. -/
def sub1Aux : Nat → List Char → List Char
  | 0, _ => []
  | _ + 1, [] => []
  | fuel + 1, c :: rest =>
    if begins fenceJson (c :: rest) then
      sub1Aux fuel ((c :: rest).drop (7 + wsRun ((c :: rest).drop 7)))
    else if begins fence3 ((c :: rest).drop (wsRun (c :: rest))) then
      sub1Aux fuel ((c :: rest).drop (wsRun (c :: rest) + 3))
    else
      c :: sub1Aux fuel rest

/-- Markdown-fence removal pass (utils.py line 118). -/
def stripFences (l : List Char) : List Char := sub1Aux (l.length + 1) l

/-- Scanner for `re.sub(r'"\s*\+\s*"', " ", text)` (utils.py line 121):
a quote, optional whitespace, `+`, optional whitespace, a quote,
replaced by a single space. -/
def concatFixAux : Nat → List Char → List Char
  | 0, _ => []
  | _ + 1, [] => []
  | fuel + 1, c :: rest =>
    if c == '"' then
      let r1 := wsRun rest
      match rest.drop r1 with
      | '+' :: t2 =>
        let r2 := wsRun t2
        match t2.drop r2 with
        | '"' :: t3 => ' ' :: concatFixAux fuel t3
        | _ => c :: concatFixAux fuel rest
      | _ => c :: concatFixAux fuel rest
    else c :: concatFixAux fuel rest

/-- String-concatenation artifact removal (utils.py line 121). -/
def concatFix (l : List Char) : List Char := concatFixAux (l.length + 1) l

/-- Scanner for `re.sub(r",(?=\w)", ", ", text)` (utils.py line 124):
a comma directly followed by a word character becomes comma-space;
the lookahead consumes nothing. -/
def commaSpaceAux : Nat → List Char → List Char
  | 0, _ => []
  | _ + 1, [] => []
  | fuel + 1, c :: rest =>
    if c == ',' && (match rest with | d :: _ => isWord d | [] => false) then
      ',' :: ' ' :: commaSpaceAux fuel rest
    else
      c :: commaSpaceAux fuel rest

/-- Comma-spacing pass (utils.py line 124). -/
def commaSpace (l : List Char) : List Char := commaSpaceAux (l.length + 1) l

/-- Scanner for `re.sub(r"\\\s", " ", text)` (utils.py lines 126-128):
a backslash followed by one whitespace character becomes a space. -/
def bsFixAux : Nat → List Char → List Char
  | 0, _ => []
  | _ + 1, [] => []
  | fuel + 1, c :: rest =>
    if c == '\\' then
      match rest with
      | d :: t => if isWs d then ' ' :: bsFixAux fuel t else c :: bsFixAux fuel rest
      | [] => [c]
    else c :: bsFixAux fuel rest

/-- Backslash-before-whitespace removal (utils.py lines 126-128). -/
def bsFix (l : List Char) : List Char := bsFixAux (l.length + 1) l

/-- Scanner for `re.sub(rf"\b\x7bkeyword\x7d\b(?!\s)", f"\x7bkeyword\x7d ", text)`
(utils.py lines 131-135).  `prev` is the character of the ORIGINAL text
immediately before the current scan position (`none` at the start); the
word boundaries are evaluated against it.  All keywords start and end
with word characters. -/
def kwFixAux (kw : List Char) : Nat → Option Char → List Char → List Char
  | 0, _, _ => []
  | _ + 1, _, [] => []
  | fuel + 1, prev, c :: rest =>
    let boundaryBefore : Bool := match prev with | none => true | some p => !isWord p
    if boundaryBefore && begins kw (c :: rest) then
      let after := (c :: rest).drop kw.length
      let boundaryAfter : Bool := match after with | [] => true | a :: _ => !isWord a
      let notWsAfter : Bool := match after with | [] => true | a :: _ => !isWs a
      if boundaryAfter && notWsAfter then
        kw ++ ' ' :: kwFixAux kw fuel (some (kw.getLastD ' ')) after
      else
        c :: kwFixAux kw fuel (some c) rest
    else
      c :: kwFixAux kw fuel (some c) rest

/-- One keyword-spacing pass (utils.py lines 131-135). -/
def kwFix (kw : List Char) (l : List Char) : List Char :=
  kwFixAux kw (l.length + 1) none l

/-- The SQL keywords of utils.py lines 131-132, in source order. -/
def sqlKeywords : List (List Char) :=
  ["SELECT".data, "FROM".data, "WHERE".data, "GROUP BY".data,
   "ORDER BY".data, "JOIN".data, "ON".data]

/-- All seven keyword-spacing passes, applied in source order. -/
def kwAll (l : List Char) : List Char := sqlKeywords.foldl (fun acc kw => kwFix kw acc) l

/-- Scanner for `re.sub(r"\s+", " ", text)` (utils.py line 138):
each maximal whitespace run becomes a single space. -/
def wsCollapseAux : Nat → List Char → List Char
  | 0, _ => []
  | _ + 1, [] => []
  | fuel + 1, c :: rest =>
    if isWs c then ' ' :: wsCollapseAux fuel (rest.drop (wsRun rest))
    else c :: wsCollapseAux fuel rest

/-- Whitespace-collapsing pass (utils.py line 138). -/
def wsCollapse (l : List Char) : List Char := wsCollapseAux (l.length + 1) l

/-- Scanner for `re.sub(r"\s*;\s*", ";", text)` (utils.py line 139):
whitespace around each semicolon is removed.  Whitespace characters are
never semicolons, so the greedy `\s*` reduces to the maximal run. -/
def semiFixAux : Nat → List Char → List Char
  | 0, _ => []
  | _ + 1, [] => []
  | fuel + 1, c :: rest =>
    let r := wsRun (c :: rest)
    match (c :: rest).drop r with
    | ';' :: t => ';' :: semiFixAux fuel (t.drop (wsRun t))
    | _ => c :: semiFixAux fuel rest

/-- Semicolon-spacing pass (utils.py line 139). -/
def semiFix (l : List Char) : List Char := semiFixAux (l.length + 1) l

/-- The pass for `re.sub(r"[\x00-\x1F\x7F]", "", text)` (utils.py line 142):
ASCII control characters are removed. -/
def ctrlStrip (l : List Char) : List Char :=
  l.filter (fun c => !(c.toNat ≤ 31 || c.toNat == 127))

/-- Scanner for `re.sub(r'(?<=\d)"(?=,)', "", text)` (utils.py line 154):
a quote preceded by a digit and followed by a comma is removed.
`prev` is the original previous character. -/
def numQuoteFixAux : Nat → Option Char → List Char → List Char
  | 0, _, _ => []
  | _ + 1, _, [] => []
  | fuel + 1, prev, c :: rest =>
    let digitBefore : Bool := match prev with | none => false | some p => p.isDigit
    let commaAfter : Bool := match rest with | d :: _ => d == ',' | [] => false
    if c == '"' && digitBefore && commaAfter then
      numQuoteFixAux fuel (some c) rest
    else
      c :: numQuoteFixAux fuel (some c) rest

/-- Quote-after-number removal (utils.py line 154). -/
def numQuoteFix (l : List Char) : List Char := numQuoteFixAux (l.length + 1) none l

/-- Length of the maximal run of commas. -/
def commaRun : List Char → Nat
  | [] => 0
  | c :: r => if c == ',' then commaRun r + 1 else 0

/-- Scanner for `re.sub(r",,+", ",", text)` (utils.py line 156):
each maximal run of two or more commas becomes a single comma. -/
def multiCommaFixAux : Nat → List Char → List Char
  | 0, _ => []
  | _ + 1, [] => []
  | fuel + 1, c :: rest =>
    if c == ',' then
      let k := commaRun rest
      if k ≥ 1 then ',' :: multiCommaFixAux fuel (rest.drop k)
      else ',' :: multiCommaFixAux fuel rest
    else c :: multiCommaFixAux fuel rest

/-- Multiple-comma collapsing (utils.py line 156). -/
def multiCommaFix (l : List Char) : List Char := multiCommaFixAux (l.length + 1) l

/-- Scanner for `re.sub(r",\s*\x7d", "\x7d", text)` (utils.py line 158):
a comma, optional whitespace, and a closing brace become the brace. -/
def trailCommaFixAux : Nat → List Char → List Char
  | 0, _ => []
  | _ + 1, [] => []
  | fuel + 1, c :: rest =>
    if c == ',' then
      let r := wsRun rest
      match rest.drop r with
      | d :: t =>
        if d == '\x7d' then '\x7d' :: trailCommaFixAux fuel t
        else c :: trailCommaFixAux fuel rest
      | [] => c :: trailCommaFixAux fuel rest
    else c :: trailCommaFixAux fuel rest

/-- Trailing-comma removal (utils.py line 158). -/
def trailCommaFix (l : List Char) : List Char := trailCommaFixAux (l.length + 1) l

/-- Substitutions 2-8 of `clean_response` (utils.py lines 121-142):
everything after the markdown-fence removal, up to and including
control-character stripping. -/
def restChain (l : List Char) : List Char :=
  ctrlStrip (semiFix (wsCollapse (kwAll (bsFix (commaSpace (concatFix l))))))

/-- The full first-pass rewrite chain of `clean_response`
(utils.py lines 118-142). -/
def passChain (l : List Char) : List Char := restChain (stripFences l)

/-- The second repair pass of `clean_response`, attempted only after a
failed JSON validation (utils.py lines 154-158). -/
def repairPass (l : List Char) : List Char :=
  trailCommaFix (multiCommaFix (numQuoteFix l))

/-!
JSON model.  `json.loads` produces Python objects: JSON `null` is the
Python value `None`, which is also what absent dataclass fields default
to, so `Json.null` doubles as the embedding of `None`.  Numbers without
fraction or exponent become Python ints (`Json.int`); other numeric
forms are kept as their lexeme (`Json.float`) since no claim computes
with floats.  Objects are association lists with unique keys, built
last-wins like a Python dict.
-/

inductive Json where
  | null : Json
  | bool : Bool → Json
  | int : Int → Json
  | float : String → Json
  | str : String → Json
  | arr : List Json → Json
  | obj : List (String × Json) → Json

/-- Dictionary lookup, `d.get(k)` style: `none` when the key is absent. -/
def objGet (fs : List (String × Json)) (k : String) : Option Json :=
  (fs.find? (fun p => p.1 == k)).map (fun p => p.2)

/-- Dictionary lookup with default, `d.get(k, dflt)`: the stored value is
returned whenever the key is present, even if it is `null`. -/
def objGetD (fs : List (String × Json)) (k : String) (dflt : Json) : Json :=
  match objGet fs k with
  | some v => v
  | none => dflt

/-- Dict insertion, last wins: an existing binding is overwritten in
place, a new key is appended (CPython dict semantics). -/
def objInsert (fs : List (String × Json)) (k : String) (v : Json) : List (String × Json) :=
  if fs.any (fun p => p.1 == k) then
    fs.map (fun p => if p.1 == k then (k, v) else p)
  else fs ++ [(k, v)]

/-- JSON document whitespace (the four characters `json.loads` skips
between tokens). -/
def skipJW : List Char → List Char
  | [] => []
  | c :: r => if c == ' ' || c == '\t' || c == '\n' || c == '\r' then skipJW r else c :: r

/-- Hexadecimal digit value. -/
def hexVal (c : Char) : Option Nat :=
  if c.isDigit then some (c.toNat - 48)
  else if 'a' ≤ c && c ≤ 'f' then some (c.toNat - 87)
  else if 'A' ≤ c && c ≤ 'F' then some (c.toNat - 55)
  else none

/-- JSON string-literal body parser, called after the opening quote.
Accumulates decoded characters; escapes follow RFC 8259 as implemented
by `json.loads` in strict mode (unescaped control characters are
rejected).  Surrogate-pair recombination of `\uXXXX` escapes is not
modelled (no claim exercises it). -/
def parseStrAux : Nat → List Char → List Char → Except String (String × List Char)
  | 0, _, _ => .error "Unterminated string"
  | _ + 1, _, [] => .error "Unterminated string"
  | fuel + 1, acc, c :: rest =>
    if c == '"' then .ok (String.mk acc.reverse, rest)
    else if c == '\\' then
      match rest with
      | [] => .error "Unterminated string"
      | e :: t =>
        if e == '"' then parseStrAux fuel ('"' :: acc) t
        else if e == '\\' then parseStrAux fuel ('\\' :: acc) t
        else if e == '/' then parseStrAux fuel ('/' :: acc) t
        else if e == 'b' then parseStrAux fuel ('\x08' :: acc) t
        else if e == 'f' then parseStrAux fuel ('\x0c' :: acc) t
        else if e == 'n' then parseStrAux fuel ('\n' :: acc) t
        else if e == 'r' then parseStrAux fuel ('\r' :: acc) t
        else if e == 't' then parseStrAux fuel ('\t' :: acc) t
        else if e == 'u' then
          match t with
          | h1 :: h2 :: h3 :: h4 :: t4 =>
            match hexVal h1, hexVal h2, hexVal h3, hexVal h4 with
            | some a, some b, some c2, some d =>
              parseStrAux fuel (Char.ofNat (((a * 16 + b) * 16 + c2) * 16 + d) :: acc) t4
            | _, _, _, _ => .error "Invalid \\uXXXX escape"
          | _ => .error "Invalid \\uXXXX escape"
        else .error "Invalid \\escape"
    else if c.toNat < 32 then .error "Invalid control character"
    else parseStrAux fuel (c :: acc) rest

/-- JSON string literal at `l` (after the opening quote). -/
def parseStr (l : List Char) : Except String (String × List Char) :=
  parseStrAux (l.length + 1) [] l

/-- Count of leading decimal digits. -/
def digitRun : List Char → Nat
  | [] => 0
  | c :: r => if c.isDigit then digitRun r + 1 else 0

/-- Natural number denoted by a list of decimal digits. -/
def natOfDigits (l : List Char) : Nat :=
  l.foldl (fun a c => a * 10 + (c.toNat - 48)) 0

/-- JSON number at `l` (which starts with `-` or a digit), following the
`json` module's NUMBER_RE: `-?(0|[1-9][0-9]*)(\.[0-9]+)?([eE][-+]?[0-9]+)?`.
Pure integer lexemes become Python ints; any fraction or exponent makes
a float, kept as its lexeme. -/
def parseNum (l : List Char) : Except String (Json × List Char) :=
  let (neg, l1) := match l with
    | '-' :: t => (true, t)
    | _ => (false, l)
  match l1 with
  | [] => .error "Expecting value"
  | c :: _ =>
    if !c.isDigit then .error "Expecting value"
    else
      let k := digitRun l1
      let intLen := if c == '0' then 1 else k
      let ip := l1.take intLen
      let r1 := l1.drop intLen
      let fracLen : Nat := match r1 with
        | '.' :: t => let d := digitRun t; if d ≥ 1 then d + 1 else 0
        | _ => 0
      let r2 := r1.drop fracLen
      let expLen : Nat := match r2 with
        | 'e' :: '+' :: t => let d := digitRun t; if d ≥ 1 then d + 2 else 0
        | 'e' :: '-' :: t => let d := digitRun t; if d ≥ 1 then d + 2 else 0
        | 'e' :: t => let d := digitRun t; if d ≥ 1 then d + 1 else 0
        | 'E' :: '+' :: t => let d := digitRun t; if d ≥ 1 then d + 2 else 0
        | 'E' :: '-' :: t => let d := digitRun t; if d ≥ 1 then d + 2 else 0
        | 'E' :: t => let d := digitRun t; if d ≥ 1 then d + 1 else 0
        | _ => 0
      let rest := r2.drop expLen
      if fracLen == 0 && expLen == 0 then
        let n : Int := Int.ofNat (natOfDigits ip)
        .ok (.int (if neg then -n else n), rest)
      else
        let lex := (if neg then ['-'] else []) ++ l1.take (intLen + fracLen + expLen)
        .ok (.float (String.mk lex), rest)

mutual

/-- JSON value parser (`json.loads` grammar, with the CPython
`NaN` / `Infinity` / `-Infinity` extensions).  Leading document
whitespace is skipped.  The fuel strictly exceeds any possible
nesting depth when instantiated with the input length. -/
def parseValue : Nat → List Char → Except String (Json × List Char)
  | 0, _ => .error "Expecting value"
  | fuel + 1, l =>
    match skipJW l with
    | [] => .error "Expecting value"
    | c :: rest =>
      if c == '\x7b' then
        match skipJW rest with
        | d :: t => if d == '\x7d' then .ok (.obj [], t) else parseMembers fuel (d :: t) []
        | [] => .error "Expecting property name enclosed in double quotes"
      else if c == '[' then
        match skipJW rest with
        | d :: t => if d == ']' then .ok (.arr [], t) else parseElems fuel (d :: t) []
        | [] => .error "Expecting value"
      else if c == '"' then
        match parseStr rest with
        | .ok (s, r) => .ok (.str s, r)
        | .error e => .error e
      else if begins "true".data (c :: rest) then .ok (.bool true, (c :: rest).drop 4)
      else if begins "false".data (c :: rest) then .ok (.bool false, (c :: rest).drop 5)
      else if begins "null".data (c :: rest) then .ok (.null, (c :: rest).drop 4)
      else if begins "NaN".data (c :: rest) then .ok (.float "nan", (c :: rest).drop 3)
      else if begins "Infinity".data (c :: rest) then .ok (.float "inf", (c :: rest).drop 8)
      else if begins "-Infinity".data (c :: rest) then .ok (.float "-inf", (c :: rest).drop 9)
      else if c == '-' || c.isDigit then parseNum (c :: rest)
      else .error "Expecting value"

/-- Object members: expects a string key next (no trailing commas). -/
def parseMembers : Nat → List Char → List (String × Json) →
    Except String (Json × List Char)
  | 0, _, _ => .error "Expecting property name enclosed in double quotes"
  | fuel + 1, l, acc =>
    match skipJW l with
    | '"' :: r =>
      (match parseStr r with
       | .error e => .error e
       | .ok (k, r1) =>
         match skipJW r1 with
         | ':' :: r2 =>
           (match parseValue fuel r2 with
            | .error e => .error e
            | .ok (v, r3) =>
              let acc2 := objInsert acc k v
              match skipJW r3 with
              | ',' :: r4 => parseMembers fuel r4 acc2
              | d :: r5 =>
                if d == '\x7d' then .ok (.obj acc2, r5)
                else .error "Expecting ',' delimiter"
              | [] => .error "Expecting ',' delimiter")
         | _ => .error "Expecting ':' delimiter")
    | _ => .error "Expecting property name enclosed in double quotes"

/-- Array elements (no trailing commas). -/
def parseElems : Nat → List Char → List Json → Except String (Json × List Char)
  | 0, _, _ => .error "Expecting value"
  | fuel + 1, l, acc =>
    match parseValue fuel l with
    | .error e => .error e
    | .ok (v, r) =>
      match skipJW r with
      | ',' :: r2 => parseElems fuel r2 (acc ++ [v])
      | d :: r3 =>
        if d == ']' then .ok (.arr (acc ++ [v]), r3)
        else .error "Expecting ',' delimiter"
      | [] => .error "Expecting ',' delimiter"

end

/-- Model of `json.loads` on a character list: a single JSON document
with optional surrounding whitespace.  Error messages are simplified
relative to CPython's diagnostics (no claim constrains their text). -/
def jsonLoadsL (l : List Char) : Except String Json :=
  match parseValue (l.length + 2) l with
  | .error e => .error e
  | .ok (j, rest) =>
    match skipJW rest with
    | [] => .ok j
    | _ => .error "Extra data"

/-- Model of `json.loads` on a string. -/
def jsonLoads (s : String) : Except String Json := jsonLoadsL s.data

/-- Whether a `json.loads` attempt succeeded. -/
def jsonOk (r : Except String Json) : Bool :=
  match r with
  | .ok _ => true
  | .error _ => false

/-- Model of `InsightGenerator.clean_response` (utils.py lines 115-160)
on a character list: run the first-pass chain, validate by JSON
parsing, and on failure apply the second repair pass; the repaired text
is returned whether or not it now parses. -/
def cleanList (l : List Char) : List Char :=
  let t := passChain l
  match jsonLoadsL t with
  | .ok _ => t
  | .error _ => repairPass t

/-- Model of `InsightGenerator.clean_response` (utils.py lines 115-160). -/
def clean_response (s : String) : String := String.mk (cleanList s.data)

/-!
Python data model for the parsing layer.  Dataclass type annotations
are not enforced at runtime, so `Insight` fields hold whatever JSON
value the response dict supplied, and `AnalysisResponse.answer` holds a
Python object where `Json.null` plays the role of `None` (the declared
default).  A raised Python exception is an `Except.error` value.
-/

/-- Python exceptions that the embedded code can raise. -/
inductive PyExn where
  | typeError : String → PyExn
  | attributeError : String → PyExn
  | nameError : String → PyExn
deriving DecidableEq

/-- Python `str(e)` of an exception: its message. -/
def pyExnMsg : PyExn → String
  | .typeError m => m
  | .attributeError m => m
  | .nameError m => m

/-- Model of the `Insight` dataclass (utils.py lines 12-18).  The
annotations (`str`, `List[str]`) are not enforced by Python, so each
field holds an arbitrary JSON-derived value. -/
structure Insight where
  insight : Json
  business_value : Json
  sql_query : Json
  visualization : Json
  metrics : Json

/-- Model of the `AnalysisResponse` dataclass (utils.py lines 21-25);
`answer`'s declared default `None` is `Json.null`. -/
structure AnalysisResponse where
  response_type : String
  insights : Option (List Insight) := none
  answer : Json := .null

mutual

/-- Python `repr()` of a JSON-derived object (used inside `str()` of
containers).  String quoting is simplified to always use single
quotes; no claim constrains this text. -/
def pyReprJ : Json → String
  | .null => "None"
  | .bool true => "True"
  | .bool false => "False"
  | .int n => toString n
  | .float lex => lex
  | .str s => "'" ++ s ++ "'"
  | .arr xs => "[" ++ pyReprL xs ++ "]"
  | .obj fs => "\x7b" ++ pyReprF fs ++ "\x7d"

/-- Comma-separated reprs of list elements. -/
def pyReprL : List Json → String
  | [] => ""
  | [x] => pyReprJ x
  | x :: y :: xs => pyReprJ x ++ ", " ++ pyReprL (y :: xs)

/-- Comma-separated reprs of dict items. -/
def pyReprF : List (String × Json) → String
  | [] => ""
  | [(k, v)] => "'" ++ k ++ "': " ++ pyReprJ v
  | (k, v) :: p :: xs => "'" ++ k ++ "': " ++ pyReprJ v ++ ", " ++ pyReprF (p :: xs)

end

/-- Python `str()` of a JSON-derived object as interpolated by an
f-string: strings appear without quotes, `None` prints as `None`,
containers use their repr. -/
def pyStrJ : Json → String
  | .str s => s
  | j => pyReprJ j

/-- Python `s.lower()` (ASCII). -/
def pyLower (s : String) : String := String.mk (s.data.map Char.toLower)

/-- Substring test, Python's `needle in hay`. -/
def containsSub (needle hay : List Char) : Bool :=
  match hay with
  | [] => begins needle []
  | _ :: t => begins needle hay || containsSub needle t

/-- The five required fields of `Insight`, in declaration order. -/
def insightFields : List String :=
  ["insight", "business_value", "sql_query", "visualization", "metrics"]

/-- Model of `Insight(**insight)` (utils.py line 175).  Keyword
expansion of a non-mapping raises `TypeError`; a dict must supply
exactly the five declared fields, otherwise the dataclass `__init__`
raises `TypeError` (messages are simplified relative to CPython). -/
def mkInsight : Json → Except PyExn Insight
  | .obj fs =>
    let missing := insightFields.filter (fun k => !(fs.any (fun p => p.1 == k)))
    let extra := fs.filter (fun p => !(insightFields.contains p.1))
    if !extra.isEmpty then
      .error (.typeError ("Insight.__init__() got an unexpected keyword argument '" ++
        (extra.headD ("", .null)).1 ++ "'"))
    else if !missing.isEmpty then
      .error (.typeError ("Insight.__init__() missing required positional arguments: " ++
        String.intercalate ", " missing))
    else
      .ok
        { insight := objGetD fs "insight" .null
          business_value := objGetD fs "business_value" .null
          sql_query := objGetD fs "sql_query" .null
          visualization := objGetD fs "visualization" .null
          metrics := objGetD fs "metrics" .null }
  | _ => .error (.typeError "Insight() argument after ** must be a mapping")

/-- Python iteration over a JSON-derived object, as used by the list
comprehension at utils.py lines 174-176: lists yield elements, strings
yield one-character strings, dicts yield their keys, and everything
else raises `TypeError`. -/
def pyIter : Json → Except PyExn (List Json)
  | .arr xs => .ok xs
  | .str s => .ok (s.data.map (fun c => .str (String.mk [c])))
  | .obj fs => .ok (fs.map (fun p => .str p.1))
  | .null => .error (.typeError "'NoneType' object is not iterable")
  | .bool _ => .error (.typeError "'bool' object is not iterable")
  | .int _ => .error (.typeError "'int' object is not iterable")
  | .float _ => .error (.typeError "'float' object is not iterable")

/-- Python equality test `x == "lit"` for a JSON-derived object against
a string literal: true exactly when the object is that string. -/
def isStrEq (j : Json) (s : String) : Bool :=
  match j with
  | .str t => t == s
  | _ => false

/-- Model of `InsightGenerator.parse_response` (utils.py lines 162-191).
Only `json.JSONDecodeError` is caught by the `try`/`except`; the
`AttributeError` from calling `.get` on a non-dict and the `TypeError`
from `Insight(**insight)` propagate as `Except.error`. -/
def parse_response (cleaned_response : String) : Except PyExn AnalysisResponse :=
  match jsonLoads cleaned_response with
  | .ok d =>
    match d with
    | .obj fs =>
      if isStrEq (objGetD fs "response_type" .null) "info" then
        .ok { response_type := "info",
              answer := objGetD fs "answer" (.str "No answer provided.") }
      else if isStrEq (objGetD fs "response_type" .null) "analysis" then
        match pyIter (objGetD fs "insights" (.arr [])) with
        | .error e => .error e
        | .ok items =>
          match items.mapM mkInsight with
          | .error e => .error e
          | .ok insights => .ok { response_type := "analysis", insights := some insights }
      else
        .ok { response_type := "error",
              answer := .str ("Unknown response type: " ++
                pyStrJ (objGetD fs "response_type" .null)) }
    | _ =>
      .error (.attributeError "object has no attribute 'get'")
  | .error e =>
    if containsSub "unable to generate".data (pyLower cleaned_response).data then
      .ok { response_type := "error", answer := .str cleaned_response }
    else
      .ok { response_type := "error", answer := .str ("Failed to parse response: " ++ e) }

/-- Serialization of one table's column list, double-quoted JSON strings. -/
def dumpsCols : List String → String
  | [] => ""
  | [c] => "\"" ++ c ++ "\""
  | c :: d :: t => "\"" ++ c ++ "\", " ++ dumpsCols (d :: t)

/-- Serialization of the table-metadata entries. -/
def dumpsEntries : List (String × List String) → String
  | [] => ""
  | [(t, cs)] => "\"" ++ t ++ "\": [" ++ dumpsCols cs ++ "]"
  | (t, cs) :: e :: r => "\"" ++ t ++ "\": [" ++ dumpsCols cs ++ "], " ++ dumpsEntries (e :: r)

/-- Model of `json.dumps(table_metadata, indent=2)` (utils.py line 197).
A `List (String × List String)` metadata map is always serializable;
the exact indentation layout is not reproduced since no claim depends
on the prompt text. -/
def dumpsMeta (md : List (String × List String)) : String :=
  "\x7b" ++ dumpsEntries md ++ "\x7d"

/-- Model of `PromptTemplate.get_analysis_prompt` (utils.py lines 31-107):
a pure function of the query and serialized metadata.  The fixed
instruction text is abbreviated; the structure (query embedded twice,
metadata once) follows the source, and no claim constrains the text. -/
def get_analysis_prompt (query metadata_str : String) : String :=
  "You are an expert business intelligence analyst. Analyze the following: USER QUERY: " ++
  query ++ " AVAILABLE DATA: Tables and their columns: " ++ metadata_str ++
  " TASK: ... OUTPUT FORMAT: ... Now, analyze the following query: " ++ query

/-- The rewording error message of utils.py line 206. -/
def rewordMsg : String := "No response generated. Please try rewording your question."

/-- Model of `InsightGenerator.generate_insights` (utils.py lines
193-215), parametrized by the normalizer and parser it composes (the
source invokes them as `self.clean_response` / `self.parse_response`).
`llm` is the opaque LLM boundary: the outcome of
`self.model.generate_content(prompt)` followed by the `.text` access,
either a returned string or a raised exception.  The `try`/`except
Exception` converts every exception raised inside the block into an
error-variant response, so the function itself never raises. -/
def generate_insightsWith (cleaner : String → String)
    (parser : String → Except PyExn AnalysisResponse)
    (query : String) (table_metadata : List (String × List String))
    (llm : String → Except PyExn String) : Except PyExn AnalysisResponse :=
  match llm (get_analysis_prompt query (dumpsMeta table_metadata)) with
  | .error e =>
    .ok { response_type := "error",
          answer := .str ("Error generating insights: " ++ pyExnMsg e) }
  | .ok text =>
    if text == "" then
      .ok { response_type := "error", answer := .str rewordMsg }
    else
      match parser (cleaner text) with
      | .ok r => .ok r
      | .error e =>
        .ok { response_type := "error",
              answer := .str ("Error generating insights: " ++ pyExnMsg e) }

/-- Model of `InsightGenerator.generate_insights` (utils.py lines 193-215). -/
def generate_insights (query : String) (table_metadata : List (String × List String))
    (llm : String → Except PyExn String) : Except PyExn AnalysisResponse :=
  generate_insightsWith clean_response parse_response query table_metadata llm

/-!
Chat interface (utils.py lines 218-285).  The display prefixes (emoji)
of the formatter strings are transcribed as plain ASCII; no claim
constrains them.
-/

/-- Python `", ".join(x)` on a JSON-derived object: joins an iterable of
strings; a non-string element or a non-iterable raises `TypeError`. -/
def pyJoinStrs (sep : String) : List Json → Except PyExn String
  | [] => .ok ""
  | [.str s] => .ok s
  | .str s :: y :: t =>
    (match pyJoinStrs sep (y :: t) with
     | .ok r => .ok (s ++ sep ++ r)
     | .error e => .error e)
  | _ => .error (.typeError "sequence item: expected str instance")

/-- Python `sep.join(obj)` (utils.py line 248). -/
def pyJoin (sep : String) (j : Json) : Except PyExn String :=
  match j with
  | .arr xs => pyJoinStrs sep xs
  | .str s => pyJoinStrs sep (s.data.map (fun c => .str (String.mk [c])))
  | .obj fs => pyJoinStrs sep (fs.map (fun p => .str p.1))
  | _ => .error (.typeError "can only join an iterable")

/-- Model of `ChatInterface._format_insight` (utils.py lines 241-251). -/
def format_insight (i : Insight) : Except PyExn String :=
  match pyJoin ", " i.metrics with
  | .error e => .error e
  | .ok ms =>
    .ok (String.intercalate "\n"
      ["\n Insight: " ++ pyStrJ i.insight,
       " Business Value: " ++ pyStrJ i.business_value,
       " Visualization: " ++ pyStrJ i.visualization,
       " Key Metrics: " ++ ms,
       " SQL:\n" ++ pyStrJ i.sql_query ++ "\n"])

/-- Model of `ChatInterface._format_analysis_response` (utils.py lines
234-239): `response.insights or []` treats `None` as the empty list. -/
def format_analysis_response (r : AnalysisResponse) : Except PyExn String :=
  match (r.insights.getD []).mapM format_insight with
  | .error e => .error e
  | .ok parts => .ok ("AI-generated insights & queries:\n" ++ String.join parts)

/-- Model of `ChatInterface._format_info_response` (utils.py lines 230-232). -/
def format_info_response (r : AnalysisResponse) : Except PyExn String :=
  .ok ("AI: " ++ pyStrJ r.answer ++ "\n")

/-- Model of `ChatInterface._format_error_response` (utils.py lines 253-255). -/
def format_error_response (r : AnalysisResponse) : Except PyExn String :=
  .ok ("Error: " ++ pyStrJ r.answer ++ "\n")

/-- Model of `ChatInterface.format_response` (utils.py lines 257-262):
dispatch through `self.response_formatters`, defaulting to the error
formatter for unknown response types. -/
def format_response (r : AnalysisResponse) : Except PyExn String :=
  if r.response_type == "info" then format_info_response r
  else if r.response_type == "analysis" then format_analysis_response r
  else format_error_response r

/-- The exit commands of utils.py line 223. -/
def exit_commands : List String := ["exit", "quit", "bye"]

/-- Python `s.strip()` over regex whitespace (ASCII). -/
def pyStrip (s : String) : String :=
  String.mk (((s.data.dropWhile (fun c => isWs c)).reverse.dropWhile (fun c => isWs c)).reverse)

/-- Names bound in the module namespace of `src/utils.py` (imports at
lines 1-7 plus the module-level definitions); name resolution of a
global falls back to Python builtins, none of which is `pd`. -/
def moduleNames : List String :=
  ["os", "json", "re", "Dict", "List", "Optional", "dataclass", "genai",
   "load_dotenv", "Insight", "AnalysisResponse", "PromptTemplate",
   "InsightGenerator", "ChatInterface", "table_metadata", "generator", "chatbot"]

/-- Evaluation of a global name: `NameError` when it is bound neither in
the module namespace nor in builtins. -/
def evalName (n : String) : Except PyExn Unit :=
  if moduleNames.contains n then .ok ()
  else .error (.nameError ("name '" ++ n ++ "' is not defined"))

/-- One chat-history entry (the timestamp of utils.py line 267 is never
reached, see `save_to_history`). -/
structure HistoryEntry where
  user : String
  ai : AnalysisResponse

/-- Model of `ChatInterface.save_to_history` (utils.py lines 264-268).
Building the entry dict evaluates `pd.Timestamp.now()` first, and `pd`
is an unbound name (pandas is never imported in utils.py). -/
def save_to_history (chat_history : List HistoryEntry) (user_input : String)
    (response : AnalysisResponse) : Except PyExn (List HistoryEntry) :=
  match evalName "pd" with
  | .error e => .error e
  | .ok _ => .ok (chat_history ++ [{ user := user_input, ai := response }])

/-- One iteration of the `start_chat` loop (utils.py lines 275-285):
normalize the input, break on an exit command (`.ok none`), otherwise
generate, format (printing is a pure side effect), then save to
history, returning the updated history (`.ok (some h)`).
`Except.error` is an exception escaping the loop body (`start_chat`
has no exception handler). -/
def chatTurn (table_metadata : List (String × List String))
    (llm : String → Except PyExn String) (chat_history : List HistoryEntry)
    (raw_input : String) : Except PyExn (Option (List HistoryEntry)) :=
  let user_input := pyLower (pyStrip raw_input)
  if exit_commands.contains user_input then .ok none
  else
    match generate_insights user_input table_metadata llm with
    | .error e => .error e
    | .ok response =>
      match format_response response with
      | .error e => .error e
      | .ok _formatted =>
        match save_to_history chat_history user_input response with
        | .error e => .error e
        | .ok h => .ok (some h)

/-!
Named inputs and predicates used by the verification theorems.
-/

/-- Whether a JSON-derived Python value is `None`. -/
def isNull : Json → Bool
  | .null => true
  | _ => false

/-- A normalized "analysis" response in which one insight lacks the
`sql_query` field (the fail-closed example of the spec). -/
def c1input : String :=
  "\x7b\"response_type\": \"analysis\", \"insights\": [\x7b\"insight\": \"i\", \"business_value\": \"b\", \"visualization\": \"bar_chart\", \"metrics\": []\x7d]\x7d"

/-- Raw model text with a string-concatenation artifact inside a JSON
string literal (the spec's example). -/
def c6raw : String := "\x7b\"sql_query\": \"SELECT * \" + \"FROM t\"\x7d"

/-- The normalized form of `c6raw`. -/
def c6out : String := "\x7b\"sql_query\": \"SELECT * FROM t\"\x7d"

/-- Input whose cleaned output is valid JSON but is further rewritten by
a second cleaning pass: control-character removal leaves a comma
directly before a word character inside a string literal. -/
def c4input : String := "\x7b\"a\":\",\x01b\"\x7d"

/-- A valid JSON document containing a concatenation-artifact look-alike
(the string value consisting of one plus sign). -/
def c5doc : String := "\x7b\"a\": \"+\"\x7d"

/-- The response parsed from an "info" object whose `answer` key is
explicitly JSON `null`. -/
def c8resp : AnalysisResponse :=
  { response_type := "info", insights := none, answer := .null }

/-- The tagged-union invariant that the produced responses actually
satisfy: a known tag, `insights` populated exactly for "analysis",
`answer` equal to `None` for "analysis", and `answer` populated (a
non-`None` value) for "error".  (For "info", `answer` may be `None`
when the parsed object maps `answer` to JSON `null`.) -/
def ResponseInv (r : AnalysisResponse) : Prop :=
  (r.response_type = "info" ∨ r.response_type = "analysis" ∨ r.response_type = "error") ∧
  (r.insights.isSome = true ↔ r.response_type = "analysis") ∧
  (r.response_type = "analysis" → r.answer = .null) ∧
  (r.response_type = "error" → isNull r.answer = false)

/-!
Verification theorems.
-/

/-- Helper: the orchestrator's `try`/`except Exception` makes it total,
whatever the normalizer, parser and LLM boundary do. -/
theorem generate_insightsWith_total (cleaner : String → String)
    (parser : String → Except PyExn AnalysisResponse) (query : String)
    (md : List (String × List String)) (llm : String → Except PyExn String) :
    ∃ r, generate_insightsWith cleaner parser query md llm = .ok r := by
  unfold generate_insightsWith
  cases hllm : llm (get_analysis_prompt query (dumpsMeta md)) with
  | error e => exact ⟨_, rfl⟩
  | ok text =>
    by_cases ht : text = ""
    · subst ht
      exact ⟨_, rfl⟩
    · have ht' : (text == "") = false := by
        exact beq_eq_false_iff_ne.mpr ht
      dsimp only
      rw [ht', if_neg (by simp : ¬((false : Bool) = true))]
      cases hp : parser (cleaner text) with
      | ok r => exact ⟨_, rfl⟩
      | error e => exact ⟨_, rfl⟩

/-- C1: the claim says `parse_response` never raises and that an
analysis insight lacking `sql_query` yields an Error-variant result.
In fact only `json.JSONDecodeError` is caught (utils.py line 184), so
`Insight(**insight)` with the missing field raises `TypeError`, which
propagates out of `parse_response`.  The spec's fail-closed intent is
right and the code's narrow `except` clause is the slip. -/
theorem c1_parse_response_missing_field_raises :
    parse_response c1input =
      .error (.typeError
        "Insight.__init__() missing required positional arguments: sql_query") := by
  rfl

/-- C6: for the spec's concatenation-artifact example, cleaning the raw
text merges the two string pieces into the single SQL string
`SELECT * FROM t`, no literal plus sign remains, and the resulting
document parses as JSON with exactly that value. -/
theorem c6_concat_artifact_collapsed :
    clean_response c6raw = c6out ∧
    jsonLoads c6out = .ok (.obj [("sql_query", .str "SELECT * FROM t")]) ∧
    c6out.data.contains '+' = false := by
  refine ⟨by rfl, by rfl, by rfl⟩

/-- C7: for input with a trailing comma before a closing brace, the
first pass leaves the text unchanged, JSON validation fails, and the
second repair pass removes the comma, after which the result parses to
the object mapping "a" to 1. -/
theorem c7_trailing_comma_repaired :
    clean_response "\x7b\"a\":1,\x7d" = "\x7b\"a\":1\x7d" ∧
    jsonLoads "\x7b\"a\":1\x7d" = .ok (.obj [("a", .int 1)]) := by
  refine ⟨by rfl, by rfl⟩

/-- C9: normalized text that is an "analysis" object with no `insights`
key parses to an Analysis-variant response with an empty insight list
(`dict.get("insights", [])` supplies the default), not an Error. -/
theorem c9_absent_insights_yields_empty_analysis :
    parse_response "\x7b\"response_type\": \"analysis\"\x7d" =
      .ok { response_type := "analysis", insights := some [], answer := .null } := by
  rfl

/-- C2: for every query, metadata map and LLM behavior, the
orchestrator returns an `AnalysisResponse` (never lets an exception
escape: the whole body is wrapped in `except Exception`), and when the
LLM call raises, the result is the Error variant describing the
underlying failure. -/
theorem c2_generate_insights_total_and_maps_llm_failure :
    (∀ (query : String) (md : List (String × List String))
       (llm : String → Except PyExn String),
       ∃ r, generate_insights query md llm = .ok r) ∧
    (∀ (query : String) (md : List (String × List String)) (e : PyExn),
       generate_insights query md (fun _ => .error e) =
         .ok { response_type := "error", insights := none,
               answer := .str ("Error generating insights: " ++ pyExnMsg e) }) := by
  constructor
  · intro query md llm
    exact generate_insightsWith_total clean_response parse_response query md llm
  · intro query md e
    rfl

/-- C3 counterexample: a whitespace-only (but nonempty) LLM output is
NOT short-circuited: `if not response.text` is false for " ", so the
text flows through the normalizer and parser and the resulting Error
carries a parse-failure message, not the rewording suggestion. -/
theorem c3_whitespace_only_not_short_circuited :
    generate_insights "q" [] (fun _ => .ok " ") =
      .ok { response_type := "error", insights := none,
            answer := .str "Failed to parse response: Expecting value" } ∧
    "Failed to parse response: Expecting value" ≠ rewordMsg := by
  refine ⟨by rfl, by decide⟩

/-- C3 amended: only the EMPTY LLM output short-circuits with the
rewording Error — in that case neither the normalizer nor the parser
is invoked (the result is the same for every normalizer and parser the
orchestrator could compose) — while a whitespace-only nonempty output
is passed through `clean_response` and `parse_response` and yields a
parse-failure Error instead. -/
theorem c3_empty_output_short_circuits :
    (∀ (cleaner : String → String) (parser : String → Except PyExn AnalysisResponse)
       (query : String) (md : List (String × List String)),
       generate_insightsWith cleaner parser query md (fun _ => .ok "") =
         .ok { response_type := "error", insights := none, answer := .str rewordMsg }) ∧
    generate_insights "q" [] (fun _ => .ok " ") =
      .ok { response_type := "error", insights := none,
            answer := .str ("Failed to parse response: " ++ "Expecting value") } := by
  refine ⟨fun cleaner parser query md => rfl, by rfl⟩

/-- Helper: a string whose cleaned output both parses as JSON and is a
fixed point of the first-pass chain is returned unchanged by another
cleaning. -/
theorem cleanList_fixed (l : List Char) (hp : passChain l = l)
    (hj : jsonOk (jsonLoadsL l) = true) : cleanList l = l := by
  unfold cleanList
  rw [hp]
  dsimp only
  cases h : jsonLoadsL l with
  | ok j => rfl
  | error e => rw [h] at hj; exact absurd hj (by simp [jsonOk])

/-- C4 counterexample: `clean_response` is not idempotent on all inputs
whose cleaned output is valid JSON.  For `c4input`, control-character
removal leaves a comma directly before a word character inside a
string literal; the cleaned output is valid JSON, but a second pass
inserts a space after that comma. -/
theorem c4_clean_response_not_idempotent :
    clean_response (clean_response c4input) ≠ clean_response c4input ∧
    jsonOk (jsonLoads (clean_response c4input)) = true := by
  refine ⟨fun h => ?_, by rfl⟩
  rw [show clean_response c4input = "\x7b\"a\":\",b\"\x7d" from by rfl] at h
  rw [show clean_response "\x7b\"a\":\",b\"\x7d" = "\x7b\"a\":\", b\"\x7d" from by rfl] at h
  exact absurd h (by decide)

/-- C4 amended: `clean_response` is idempotent on every string whose
cleaned output parses as JSON AND is itself left unchanged by the
first-pass rewrite chain.  (Without the second condition a later pass
can differ, because control-character removal may expose new rewrite
sites, as in `c4_clean_response_not_idempotent`.) -/
theorem c4_idempotent_on_chain_fixed_points (s : String)
    (hp : passChain (cleanList s.data) = cleanList s.data)
    (hj : jsonOk (jsonLoadsL (cleanList s.data)) = true) :
    clean_response (clean_response s) = clean_response s := by
  show String.mk (cleanList (String.mk (cleanList s.data)).data) = String.mk (cleanList s.data)
  exact congrArg String.mk (cleanList_fixed (cleanList s.data) hp hj)

/-- Witness for C4: the already-normalized document satisfies both
hypotheses, and cleaning it twice equals cleaning it once. -/
theorem c4_idempotent_witness :
    clean_response (clean_response "\x7b\"a\": 1\x7d") = clean_response "\x7b\"a\": 1\x7d" :=
  c4_idempotent_on_chain_fixed_points "\x7b\"a\": 1\x7d" (by rfl) (by rfl)

/-- C8 counterexample: parsing an "info" object whose `answer` key is
explicitly JSON `null` produces an info response whose `answer` is
`None` (`dict.get` returns the stored `null`, not the default), so
"answer populated iff response_type is info or error" fails. -/
theorem c8_info_with_null_answer_unpopulated :
    parse_response "\x7b\"response_type\": \"info\", \"answer\": null\x7d" = .ok c8resp ∧
    ¬(c8resp.answer ≠ .null ↔ (c8resp.response_type = "info" ∨ c8resp.response_type = "error")) := by
  refine ⟨by rfl, fun h => ?_⟩
  exact (h.mpr (Or.inl rfl)) rfl

/-- C8 amended: every response produced by `parse_response` or
`generate_insights` has a tag among "info"/"analysis"/"error",
`insights` populated exactly when the tag is "analysis", `answer`
equal to `None` for "analysis", and `answer` populated for "error";
for "info" the `answer` may be `None` when the parsed object maps
`answer` to JSON `null` (see `c8_info_with_null_answer_unpopulated`). -/
theorem c8_tagged_union_invariant_amended :
    (∀ (s : String) (r : AnalysisResponse), parse_response s = .ok r → ResponseInv r) ∧
    (∀ (query : String) (md : List (String × List String))
       (llm : String → Except PyExn String) (r : AnalysisResponse),
       generate_insights query md llm = .ok r → ResponseInv r) := by
  have errInv : ∀ m : String,
      ResponseInv { response_type := "error", insights := none, answer := .str m } := by
    intro m
    refine ⟨Or.inr (Or.inr rfl), by simp, by simp, fun _ => rfl⟩
  have part1 : ∀ (s : String) (r : AnalysisResponse), parse_response s = .ok r → ResponseInv r := by
    intro s r h
    unfold parse_response at h
    cases hj : jsonLoads s with
    | error e =>
      rw [hj] at h
      dsimp only at h
      by_cases hc : containsSub "unable to generate".data (pyLower s).data = true
      · rw [if_pos hc] at h
        cases h
        exact ⟨Or.inr (Or.inr rfl), by simp, by simp, fun _ => rfl⟩
      · rw [if_neg hc] at h
        cases h
        exact errInv _
    | ok d =>
      rw [hj] at h
      cases d with
      | obj fs =>
        dsimp only at h
        by_cases h1 : isStrEq (objGetD fs "response_type" .null) "info" = true
        · rw [if_pos h1] at h
          cases h
          exact ⟨Or.inl rfl, by simp, by simp, by simp⟩
        · rw [if_neg h1] at h
          by_cases h2 : isStrEq (objGetD fs "response_type" .null) "analysis" = true
          · rw [if_pos h2] at h
            cases hit : pyIter (objGetD fs "insights" (.arr [])) with
            | error e => rw [hit] at h; cases h
            | ok items =>
              rw [hit] at h
              dsimp only at h
              cases hmap : items.mapM mkInsight with
              | error e => rw [hmap] at h; cases h
              | ok insights =>
                rw [hmap] at h
                dsimp only at h
                cases h
                exact ⟨Or.inr (Or.inl rfl), by simp, fun _ => rfl, by simp⟩
          · rw [if_neg h2] at h
            cases h
            exact errInv _
      | null => exact absurd h (by simp)
      | bool b => exact absurd h (by simp)
      | int n => exact absurd h (by simp)
      | float x => exact absurd h (by simp)
      | str x => exact absurd h (by simp)
      | arr xs => exact absurd h (by simp)
  refine ⟨part1, ?_⟩
  intro query md llm r h
  unfold generate_insights generate_insightsWith at h
  cases hllm : llm (get_analysis_prompt query (dumpsMeta md)) with
  | error e =>
    rw [hllm] at h
    cases h
    exact errInv _
  | ok text =>
    rw [hllm] at h
    dsimp only at h
    by_cases ht : (text == "") = true
    · rw [if_pos ht] at h
      cases h
      exact errInv _
    · rw [if_neg ht] at h
      cases hp : parse_response (clean_response text) with
      | ok r2 =>
        rw [hp] at h
        cases h
        exact part1 _ _ hp
      | error e =>
        rw [hp] at h
        cases h
        exact errInv _

/-- Witness for C8: the amended invariant instantiated at the concrete
empty-analysis response of `parse_response`. -/
theorem c8_invariant_witness :
    ResponseInv { response_type := "analysis", insights := some [], answer := .null } :=
  c8_tagged_union_invariant_amended.1 "\x7b\"response_type\": \"analysis\"\x7d"
    { response_type := "analysis", insights := some [], answer := .null } (by rfl)

/-- C10: every call to `save_to_history` raises `NameError` (the name
`pd` is never bound in utils.py), and consequently a `start_chat` loop
iteration on any non-exit input always raises — it can never return an
updated history. -/
theorem c10_save_to_history_raises_nameerror :
    (∀ (hist : List HistoryEntry) (u : String) (r : AnalysisResponse),
       save_to_history hist u r = .error (.nameError "name 'pd' is not defined")) ∧
    (∀ (md : List (String × List String)) (llm : String → Except PyExn String)
       (hist : List HistoryEntry) (input : String),
       exit_commands.contains (pyLower (pyStrip input)) = false →
       ∃ e, chatTurn md llm hist input = .error e) := by
  refine ⟨fun hist u r => rfl, ?_⟩
  intro md llm hist input hne
  unfold chatTurn
  dsimp only
  rw [hne, if_neg (by simp : ¬((false : Bool) = true))]
  obtain ⟨r, hr⟩ :=
    generate_insightsWith_total clean_response parse_response (pyLower (pyStrip input)) md llm
  rw [show generate_insights (pyLower (pyStrip input)) md llm = .ok r from hr]
  dsimp only
  cases hf : format_response r with
  | error e => exact ⟨e, rfl⟩
  | ok s => exact ⟨.nameError "name 'pd' is not defined", rfl⟩

/-- Witness for C10: a concrete non-exit turn raises. -/
theorem c10_chat_turn_witness :
    save_to_history [] "hello"
      { response_type := "error", insights := none, answer := .str "x" } =
      .error (.nameError "name 'pd' is not defined") ∧
    ∃ e, chatTurn [] (fun _ => .ok "") [] "hello" = .error e := by
  refine ⟨c10_save_to_history_raises_nameerror.1 [] "hello" _, ?_⟩
  exact c10_save_to_history_raises_nameerror.2 [] (fun _ => .ok "") [] "hello" (by decide)

/-- Helper: a pattern is a prefix of itself followed by anything. -/
theorem begins_append (p l : List Char) : begins p (p ++ l) = true := by
  induction p with
  | nil => rfl
  | cons c cs ih => simp [begins, ih]

/-- Helper: fence stripping of the empty list is empty at every fuel. -/
theorem sub1Aux_nil (fuel : Nat) : sub1Aux fuel [] = [] := by
  cases fuel <;> rfl

/-- The fence-json literal in explicit character form. -/
theorem fenceJson_eq : fenceJson = btk :: btk :: btk :: 'j' :: 's' :: 'o' :: 'n' :: [] := by
  decide

/-- The three-backtick literal in explicit character form. -/
theorem fence3_eq : fence3 = btk :: btk :: btk :: [] := by
  decide

/-- Helper: a backtick-headed pattern never begins a list headed by a
non-backtick character. -/
theorem begins_btk_false (ps : List Char) (c : Char) (cs : List Char)
    (hc : (c == btk) = false) : begins (btk :: ps) (c :: cs) = false := by
  have h2 : (btk == c) = false :=
    beq_eq_false_iff_ne.mpr (Ne.symm (beq_eq_false_iff_ne.mp hc))
  simp [begins, h2]

/-- Helper: the default of `getLastD` is irrelevant on nonempty lists. -/
theorem getLastD_default_eq (y : Char) (t : List Char) (d e : Char) :
    (y :: t).getLastD d = (y :: t).getLastD e := by
  rw [List.getLastD_cons, List.getLastD_cons]

/-- Helper: dropping the whitespace run of a list that contains some
non-whitespace character exposes a non-whitespace element of that
list, for any appended suffix. -/
theorem wsRun_append_spec (L M : List Char) (hw : ∃ w, w ∈ L ∧ isWs w = false) :
    ∃ d t, (L ++ M).drop (wsRun (L ++ M)) = d :: (t ++ M) ∧ isWs d = false ∧ d ∈ L := by
  induction L with
  | nil =>
    obtain ⟨w, hm, _⟩ := hw
    exact absurd hm (List.not_mem_nil w)
  | cons x L' ih =>
    cases hx : isWs x with
    | false =>
      refine ⟨x, L', ?_, hx, List.mem_cons_self x L'⟩
      rw [List.cons_append]
      have h0 : wsRun (x :: (L' ++ M)) = 0 := by simp [wsRun, hx]
      rw [h0, List.drop_zero]
    | true =>
      obtain ⟨w, hm, hwns⟩ := hw
      have hmL' : w ∈ L' := by
        rcases List.mem_cons.mp hm with h | h
        · subst h; rw [hx] at hwns; exact Bool.noConfusion hwns
        · exact h
      obtain ⟨d, t, hdrop, hd, hdm⟩ := ih ⟨w, hmL', hwns⟩
      refine ⟨d, t, ?_, hd, List.mem_cons_of_mem x hdm⟩
      rw [List.cons_append]
      have h1 : wsRun (x :: (L' ++ M)) = wsRun (L' ++ M) + 1 := by simp [wsRun, hx]
      rw [h1, List.drop_succ_cons]
      exact hdrop

/-- Helper: the fence-stripping scanner leaves a backtick-free text
that does not end in whitespace untouched and removes a trailing
three-backtick fence. -/
theorem sub1Aux_fence (J : List Char) : ∀ fuel : Nat, J.length + 2 ≤ fuel →
    (∀ c ∈ J, (c == btk) = false) →
    (J = [] ∨ isWs (J.getLastD ' ') = false) →
    sub1Aux fuel (J ++ fence3) = J := by
  induction J with
  | nil =>
    intro fuel hfuel _ _
    cases fuel with
    | zero => exact absurd hfuel (by decide)
    | succ f =>
      rw [List.nil_append, fence3_eq]
      simp only [sub1Aux]
      rw [show begins fenceJson (btk :: btk :: btk :: []) = false from by decide]
      rw [if_neg (by simp : ¬((false : Bool) = true))]
      rw [show begins fence3
            ((btk :: btk :: btk :: ([] : List Char)).drop
              (wsRun (btk :: btk :: btk :: []))) = true from by decide]
      rw [if_pos rfl]
      rw [show (btk :: btk :: btk :: ([] : List Char)).drop
            (wsRun (btk :: btk :: btk :: []) + 3) = [] from by decide]
      exact sub1Aux_nil f
  | cons c J' ih =>
    intro fuel hfuel hbt hlast
    cases fuel with
    | zero => simp [List.length_cons] at hfuel
    | succ f =>
      have hc : (c == btk) = false := hbt c (List.mem_cons_self c J')
      have hf' : J'.length + 2 ≤ f := by
        simp [List.length_cons] at hfuel
        omega
      have hbt' : ∀ x ∈ J', (x == btk) = false :=
        fun x hx => hbt x (List.mem_cons_of_mem c hx)
      rw [List.cons_append]
      simp only [sub1Aux]
      rw [show begins fenceJson (c :: (J' ++ fence3)) = false from by
            rw [fenceJson_eq]; exact begins_btk_false _ c _ hc]
      rw [if_neg (by simp : ¬((false : Bool) = true))]
      cases hx : isWs c with
      | false =>
        have hws : wsRun (c :: (J' ++ fence3)) = 0 := by simp [wsRun, hx]
        rw [show begins fence3
              ((c :: (J' ++ fence3)).drop (wsRun (c :: (J' ++ fence3)))) = false from by
              rw [hws, List.drop_zero, fence3_eq]; exact begins_btk_false _ c _ hc]
        rw [if_neg (by simp : ¬((false : Bool) = true))]
        congr 1
        apply ih f hf' hbt'
        cases J' with
        | nil => exact Or.inl rfl
        | cons y t' =>
          right
          rcases hlast with h | h
          · exact absurd h (List.cons_ne_nil c (y :: t'))
          · rw [List.getLastD_cons] at h
            rw [getLastD_default_eq y t' ' ' c]
            exact h
      | true =>
        have hJ'ne : J' ≠ [] := by
          intro hnil
          subst hnil
          rcases hlast with h | h
          · exact List.noConfusion h
          · rw [List.getLastD_cons] at h
            rw [show ([] : List Char).getLastD c = c from rfl] at h
            rw [hx] at h
            exact Bool.noConfusion h
        have hlw : isWs ((c :: J').getLastD ' ') = false := by
          rcases hlast with h | h
          · exact absurd h (List.cons_ne_nil c J')
          · exact h
        have hmem : (c :: J').getLastD ' ' ∈ c :: J' := by
          rw [List.getLastD_cons]
          exact List.getLastD_mem_cons J' c
        obtain ⟨d, t, hdrop, hd, hdm⟩ :=
          wsRun_append_spec (c :: J') fence3 ⟨(c :: J').getLastD ' ', hmem, hlw⟩
        rw [show begins fence3
              ((c :: (J' ++ fence3)).drop (wsRun (c :: (J' ++ fence3)))) = false from by
              rw [← List.cons_append, hdrop, fence3_eq]
              exact begins_btk_false _ d _ (hbt d hdm)]
        rw [if_neg (by simp : ¬((false : Bool) = true))]
        congr 1
        apply ih f hf' hbt'
        cases J' with
        | nil => exact absurd rfl hJ'ne
        | cons y t' =>
          right
          rw [List.getLastD_cons] at hlw
          rw [getLastD_default_eq y t' ' ' c]
          exact hlw

/-- Helper: one scanner step consumes an initial fence-json marker
together with the (empty) whitespace run that follows it. -/
theorem sub1Aux_wrapped_step (f : Nat) (X : List Char) (hx : wsRun X = 0) :
    sub1Aux (f + 1) (fenceJson ++ X) = sub1Aux f X := by
  have hlist : fenceJson ++ X = btk :: btk :: btk :: 'j' :: 's' :: 'o' :: 'n' :: X := by
    rw [fenceJson_eq]
    rfl
  rw [hlist]
  simp only [sub1Aux]
  rw [show begins fenceJson (btk :: btk :: btk :: 'j' :: 's' :: 'o' :: 'n' :: X) = true from by
        rw [fenceJson_eq]; simp [begins]]
  rw [if_pos rfl]
  rw [show (btk :: btk :: btk :: 'j' :: 's' :: 'o' :: 'n' :: X).drop 7 = X from rfl]
  rw [hx]
  rfl

/-- Helper: `stripFences` on text wrapped in a fence-json opening
marker and a closing three-backtick fence returns exactly the wrapped
text, provided it is nonempty, backtick-free, and neither starts nor
ends with whitespace. -/
theorem stripFences_wrapped (J : List Char) (hne : J ≠ [])
    (hhead : isWs (J.headD ' ') = false)
    (hbt : ∀ c ∈ J, (c == btk) = false)
    (hlast : isWs (J.getLastD ' ') = false) :
    stripFences (fenceJson ++ J ++ fence3) = J := by
  obtain ⟨c, J', rfl⟩ : ∃ c J', J = c :: J' := by
    cases J with
    | nil => exact absurd rfl hne
    | cons c J' => exact ⟨c, J', rfl⟩
  have hhead' : isWs c = false := by simpa using hhead
  unfold stripFences
  rw [List.append_assoc]
  have hws0 : wsRun ((c :: J') ++ fence3) = 0 := by
    rw [List.cons_append]; simp [wsRun, hhead']
  rw [sub1Aux_wrapped_step _ _ hws0]
  apply sub1Aux_fence (c :: J') _ _ hbt (Or.inr hlast)
  have h7 : fenceJson.length = 7 := by decide
  have h3 : fence3.length = 3 := by decide
  simp [List.length_append, h7, h3, List.length_cons]
  omega

/-- C5 counterexample: the universally-quantified claim fails.  The
document `c5doc` is valid JSON, but cleaning its fence-wrapped form
does not yield a JSON-parseable string: the concatenation-artifact
rule rewrites the string value consisting of a plus sign, corrupting
the document. -/
theorem c5_fenced_json_can_fail_to_parse :
    jsonOk (jsonLoads c5doc) = true ∧
    jsonOk (jsonLoads (clean_response ("```json" ++ c5doc ++ "```"))) = false := by
  refine ⟨by rfl, by rfl⟩

/-- C5 amended: for every valid JSON document that the repair chain
leaves unchanged (no artifact match sites) and that is nonempty,
backtick-free, and neither starts nor ends with whitespace, cleaning
the fence-wrapped raw text strips the fence markers, returns exactly
the document, and the result parses as JSON. -/
theorem c5_fence_stripping_on_clean_documents (s : String)
    (hne : s.data.isEmpty = false)
    (hbt : s.data.all (fun c => !(c == btk)) = true)
    (hhead : isWs (s.data.headD ' ') = false)
    (hlast : isWs (s.data.getLastD ' ') = false)
    (hfix : restChain s.data = s.data)
    (hjson : jsonOk (jsonLoads s) = true) :
    clean_response ("```json" ++ s ++ "```") = s ∧
    jsonOk (jsonLoads (clean_response ("```json" ++ s ++ "```"))) = true := by
  have hne' : s.data ≠ [] := by
    intro h
    rw [h] at hne
    exact absurd hne (by decide)
  have hbt' : ∀ c ∈ s.data, (c == btk) = false := by
    intro c hc
    have h1 := (List.all_eq_true.mp hbt) c hc
    simpa using h1
  have hdata : ("```json" ++ s ++ "```").data = fenceJson ++ s.data ++ fence3 := by
    rw [String.data_append, String.data_append]
    rfl
  have hchain : passChain ("```json" ++ s ++ "```").data = s.data := by
    rw [hdata]
    unfold passChain
    rw [stripFences_wrapped s.data hne' hhead hbt' hlast]
    exact hfix
  have hclean : clean_response ("```json" ++ s ++ "```") = s := by
    unfold clean_response cleanList
    dsimp only
    rw [hchain]
    unfold jsonLoads at hjson
    cases hj : jsonLoadsL s.data with
    | ok j => rfl
    | error e =>
      rw [hj] at hjson
      exact absurd hjson (by simp [jsonOk])
  exact ⟨hclean, by rw [hclean]; exact hjson⟩

/-- Witness for C5: the chain-fixed document satisfies every
hypothesis, and cleaning its fenced form returns it, parsing as JSON. -/
theorem c5_fence_stripping_witness :
    clean_response ("```json" ++ "\x7b\"a\": 1\x7d" ++ "```") = "\x7b\"a\": 1\x7d" ∧
    jsonOk (jsonLoads (clean_response ("```json" ++ "\x7b\"a\": 1\x7d" ++ "```"))) = true :=
  c5_fence_stripping_on_clean_documents "\x7b\"a\": 1\x7d"
    (by rfl) (by rfl) (by rfl) (by rfl) (by rfl) (by rfl)

/-- Witness for C2: the failure mapping at a concrete exception. -/
theorem c2_generate_insights_witness :
    generate_insights "q" [("t", ["c"])] (fun _ => .error (.typeError "boom")) =
      .ok { response_type := "error", insights := none,
            answer := .str ("Error generating insights: " ++ pyExnMsg (.typeError "boom")) } :=
  c2_generate_insights_total_and_maps_llm_failure.2 "q" [("t", ["c"])] (.typeError "boom")

/-- Witness for C3: the empty-output short circuit at concrete arguments. -/
theorem c3_empty_output_witness :
    generate_insightsWith clean_response parse_response "q" [] (fun _ => .ok "") =
      .ok { response_type := "error", insights := none, answer := .str rewordMsg } :=
  c3_empty_output_short_circuits.1 clean_response parse_response "q" []
